import Mathlib

/-!
Shallow embedding of the feasibility-calculation core of the
business-feasibility backend: `app/core/calculator.py`
(class `FeasibilityCalculator`) and `app/core/risk_analyzer.py`
(class `RiskAnalyzer`).

Python `Decimal` values (exact decimal arithmetic) are modelled as `ℚ`;
the source's `round(x, n)` on `Decimal`/`float` values uses the default
`ROUND_HALF_EVEN` mode (banker's rounding), modelled by `roundDec`;
Python `int(x)` truncates toward zero, modelled by `pyInt`.  A `Decimal`
division by zero raises in the source; the one unguarded division
(`fixed_costs / contribution_margin_ratio`) is therefore modelled by an
`Option`-valued result, `none` standing for the raised exception.
-/

namespace Feasibility

/-- Round a rational to the nearest integer, ties going to the even
neighbour.  This is the semantics of Python's built-in `round` (and of
`Decimal.quantize` under the default `ROUND_HALF_EVEN` context). -/
def roundHalfEvenInt (q : ℚ) : ℤ :=
  if q - ⌊q⌋ < 1/2 then ⌊q⌋
  else if 1/2 < q - ⌊q⌋ then ⌊q⌋ + 1
  else if ⌊q⌋ % 2 = 0 then ⌊q⌋ else ⌊q⌋ + 1

/-- Round a rational to `d` decimal places, ties to even:
the semantics of Python's `round(x, d)` on `Decimal` operands. -/
def roundDec (d : ℕ) (q : ℚ) : ℚ :=
  (roundHalfEvenInt (q * 10 ^ d) : ℚ) / 10 ^ d

/-- Python's `int(x)` conversion: truncation toward zero. -/
def pyInt (q : ℚ) : ℤ :=
  if 0 ≤ q then ⌊q⌋ else ⌈q⌉

/-- `HalfEvenAt2 q r`: `r` is the result of rounding `q` to 2 decimal
places under the round-half-to-even policy: `r` is a whole number of
hundredths, it is within half a hundredth of `q`, and on an exact tie
the chosen number of hundredths is even. -/
def HalfEvenAt2 (q r : ℚ) : Prop :=
  ∃ n : ℤ, r = (n : ℚ) / 100 ∧ |r - q| ≤ 1 / 200 ∧ (|r - q| = 1 / 200 → 2 ∣ n)

/-- Rounding a rational to 2 decimal places under the spec's claimed
"round half away from zero" policy. -/
def roundHalfAwayFromZero2 (q : ℚ) : ℚ :=
  if 0 ≤ q then (⌊q * 100 + 1/2⌋ : ℚ) / 100
  else -((⌊-(q * 100) + 1/2⌋ : ℚ) / 100)

/-- The five fields of `app/models/product.py` that the calculator
reads (`name`, `cost_per_unit`, `selling_price`, `daily_volume`,
`working_days_per_month`). -/
structure Product where
  name : String
  cost_per_unit : ℚ
  selling_price : ℚ
  daily_volume : ℤ
  working_days_per_month : ℤ
deriving Repr, DecidableEq

/-- Constructor state of `FeasibilityCalculator.__init__`. -/
structure FeasibilityCalculator where
  initial_investment : ℚ
  monthly_fixed_costs : ℚ
  products : List Product
deriving Repr, DecidableEq

/-- `FeasibilityCalculator.calculate_monthly_revenue`: sum over the
products of `selling_price * daily_volume * working_days_per_month`. -/
def calculate_monthly_revenue (c : FeasibilityCalculator) : ℚ :=
  c.products.foldl
    (fun total_revenue p =>
      total_revenue + p.selling_price * (p.daily_volume : ℚ) * (p.working_days_per_month : ℚ))
    0

/-- `FeasibilityCalculator.calculate_monthly_variable_costs`: sum over
the products of `cost_per_unit * daily_volume * working_days_per_month`. -/
def calculate_monthly_variable_costs (c : FeasibilityCalculator) : ℚ :=
  c.products.foldl
    (fun total_cost p =>
      total_cost + p.cost_per_unit * (p.daily_volume : ℚ) * (p.working_days_per_month : ℚ))
    0

/-- The local `margin` value of `calculate_gross_margin` before
rounding: `(gross_profit / revenue) * 100`. -/
def raw_margin (c : FeasibilityCalculator) : ℚ :=
  (calculate_monthly_revenue c - calculate_monthly_variable_costs c)
    / calculate_monthly_revenue c * 100

/-- `FeasibilityCalculator.calculate_gross_margin`: `0` when revenue is
`0`, otherwise the raw margin rounded to 2 decimal places. -/
def calculate_gross_margin (c : FeasibilityCalculator) : ℚ :=
  if calculate_monthly_revenue c = 0 then 0
  else roundDec 2 (raw_margin c)

/-- The local `net_profit` value of `calculate_net_profit` before
rounding: `revenue - variable_costs - fixed_costs`. -/
def raw_net_profit (c : FeasibilityCalculator) : ℚ :=
  calculate_monthly_revenue c - calculate_monthly_variable_costs c - c.monthly_fixed_costs

/-- `FeasibilityCalculator.calculate_net_profit`:
`round(revenue - variable_costs - fixed_costs, 2)`. -/
def calculate_net_profit (c : FeasibilityCalculator) : ℚ :=
  roundDec 2 (raw_net_profit c)

/-- The local `contribution_margin_ratio` of `calculate_breakeven`:
`(revenue - variable_costs) / revenue`. -/
def contribution_margin (c : FeasibilityCalculator) : ℚ :=
  (calculate_monthly_revenue c - calculate_monthly_variable_costs c)
    / calculate_monthly_revenue c

/-- The local `breakeven_revenue` of `calculate_breakeven` before
rounding: `fixed_costs / contribution_margin_ratio`. -/
def raw_breakeven_revenue (c : FeasibilityCalculator) : ℚ :=
  c.monthly_fixed_costs / contribution_margin c

/-- The local `required_increase` of `calculate_breakeven` before
rounding: `((breakeven_revenue - revenue) / revenue) * 100`. -/
def raw_required_increase (c : FeasibilityCalculator) : ℚ :=
  (raw_breakeven_revenue c - calculate_monthly_revenue c)
    / calculate_monthly_revenue c * 100

/-- The dict returned by `calculate_breakeven`.  The zero-revenue
branch of the source returns a dict with only the first three keys, so
the last three fields are `Option`s, `none` meaning the key is absent. -/
structure BreakevenResult where
  breakeven_revenue : ℚ
  breakeven_months : ℤ
  required_increase : ℚ
  monthly_net_at_breakeven : Option ℚ
  current_revenue : Option ℚ
  revenue_gap : Option ℚ
deriving Repr, DecidableEq

/-- `FeasibilityCalculator.calculate_breakeven`.  When revenue is
nonzero but the contribution margin ratio is zero, the source performs
a `Decimal` division by zero, which raises; that path is `none`. -/
def calculate_breakeven (c : FeasibilityCalculator) : Option BreakevenResult :=
  if calculate_monthly_revenue c = 0 then
    some { breakeven_revenue := 0
           breakeven_months := 999
           required_increase := 100
           monthly_net_at_breakeven := none
           current_revenue := none
           revenue_gap := none }
  else if contribution_margin c = 0 then
    none
  else
    some { breakeven_revenue := roundDec 2 (raw_breakeven_revenue c)
           breakeven_months :=
             if 0 < raw_net_profit c then
               pyInt (c.initial_investment / raw_net_profit c)
             else 999
           required_increase := roundDec 2 (raw_required_increase c)
           monthly_net_at_breakeven := some 0
           current_revenue := some (roundDec 2 (calculate_monthly_revenue c))
           revenue_gap :=
             some (roundDec 2 (raw_breakeven_revenue c - calculate_monthly_revenue c)) }

/-- One entry of the list returned by `calculate_daily_targets`. -/
structure DailyTarget where
  product_name : String
  current_daily : ℤ
  target_daily : ℤ
  increase_needed : ℤ
  increase_percentage : ℚ
deriving Repr, DecidableEq

/-- `FeasibilityCalculator.calculate_daily_targets`: for each product,
`target_daily = int(current_daily * (1 + required_increase))` with
`required_increase = breakeven_info["required_increase"] / 100`. -/
def calculate_daily_targets (c : FeasibilityCalculator) : Option (List DailyTarget) :=
  (calculate_breakeven c).map fun breakeven_info =>
    let required_increase := breakeven_info.required_increase / 100
    c.products.map fun product =>
      let current_daily : ℤ := product.daily_volume
      let target_daily : ℤ := pyInt ((current_daily : ℚ) * (1 + required_increase))
      { product_name := product.name
        current_daily := current_daily
        target_daily := target_daily
        increase_needed := target_daily - current_daily
        increase_percentage := roundDec 1 (required_increase * 100) }

/-- The dict returned by `calculate_all` (floats at the transport
boundary are modelled by the exact rationals they serialize). -/
structure CalcAllResult where
  monthly_revenue : ℚ
  monthly_variable_cost : ℚ
  monthly_fixed_cost : ℚ
  monthly_net_profit : ℚ
  gross_margin : ℚ
  net_margin : ℚ
  breakeven : BreakevenResult
  daily_targets : List DailyTarget
deriving Repr, DecidableEq

/-- `FeasibilityCalculator.calculate_all`. -/
def calculate_all (c : FeasibilityCalculator) : Option CalcAllResult :=
  (calculate_breakeven c).bind fun breakeven =>
    (calculate_daily_targets c).map fun daily_targets =>
      { monthly_revenue := calculate_monthly_revenue c
        monthly_variable_cost := calculate_monthly_variable_costs c
        monthly_fixed_cost := c.monthly_fixed_costs
        monthly_net_profit := calculate_net_profit c
        gross_margin := calculate_gross_margin c
        net_margin :=
          if 0 < calculate_monthly_revenue c then
            calculate_net_profit c / calculate_monthly_revenue c * 100
          else 0
        breakeven := breakeven
        daily_targets := daily_targets }

/-- Fixed-point rendering of a rational with `digits` decimal places,
modelling a Python format spec such as `:.0f` or `:.1f` applied to the
exact value (Python rounds half to even when formatting). -/
def fmtFixed (digits : ℕ) (q : ℚ) : String :=
  let n := roundHalfEvenInt (q * 10 ^ digits)
  let sign := if n < 0 then "-" else ""
  let m := n.natAbs
  if digits = 0 then sign ++ toString m
  else
    let ip := m / 10 ^ digits
    let fp := m % 10 ^ digits
    let fpStr := toString fp
    let padded := String.mk (List.replicate (digits - fpStr.length) '0') ++ fpStr
    sign ++ toString ip ++ "." ++ padded

/-- One warning dict appended by `RiskAnalyzer.analyze`:
`{"type": ..., "message": ...}`. -/
structure RiskWarning where
  wtype : String
  message : String
deriving Repr, DecidableEq

/-- The fields of the calculator's result dict that
`RiskAnalyzer.analyze` reads: `breakeven.breakeven_months`,
`breakeven.required_increase`, `gross_margin`, `monthly_fixed_cost`
and `daily_targets`. -/
structure RiskInput where
  breakeven_months : ℤ
  required_increase : ℚ
  gross_margin : ℚ
  monthly_fixed_cost : ℚ
  daily_targets : List DailyTarget
deriving Repr, DecidableEq

/-- Constructor state of `RiskAnalyzer.__init__`. -/
structure RiskAnalyzer where
  results : RiskInput
  initial_investment : ℚ
  emergency_fund : ℚ
deriving Repr, DecidableEq

/-- Rule 1 of `RiskAnalyzer.analyze` (payback period, on
`breakeven_months`): the points it adds to `risk_score` and the
warnings it appends. -/
def paybackRule (breakeven_months : ℤ) : ℤ × List RiskWarning :=
  if 24 < breakeven_months then
    (40, [⟨"critical", "Yatırım geri dönüş süresi çok uzun: " ++ toString breakeven_months ++ " ay"⟩])
  else if 18 < breakeven_months then
    (30, [⟨"high", "Yatırım geri dönüş süresi yüksek: " ++ toString breakeven_months ++ " ay"⟩])
  else if 12 < breakeven_months then
    (15, [⟨"medium", "Yatırım geri dönüş süresi: " ++ toString breakeven_months ++ " ay"⟩])
  else (0, [])

/-- Rule 2 of `RiskAnalyzer.analyze` (sales-increase requirement, on
`required_increase`). -/
def salesGapRule (required_increase : ℚ) : ℤ × List RiskWarning :=
  if 100 < required_increase then
    (40, [⟨"critical", "Satışları %" ++ fmtFixed 0 required_increase ++ " artırmanız gerekiyor - çok yüksek!"⟩])
  else if 50 < required_increase then
    (25, [⟨"high", "Satışları %" ++ fmtFixed 0 required_increase ++ " artırmanız gerekiyor"⟩])
  else if 25 < required_increase then
    (10, [⟨"medium", "Satışları %" ++ fmtFixed 0 required_increase ++ " artırmanız hedefleniyor"⟩])
  else (0, [])

/-- Rule 3 of `RiskAnalyzer.analyze` (margin health, on
`gross_margin`). -/
def marginRule (gross_margin : ℚ) : ℤ × List RiskWarning :=
  if gross_margin < 30 then
    (25, [⟨"high", "Brüt kar marjı düşük: %" ++ fmtFixed 1 gross_margin⟩])
  else if gross_margin < 40 then
    (10, [⟨"medium", "Brüt kar marjı iyileştirilebilir: %" ++ fmtFixed 1 gross_margin⟩])
  else (0, [])

/-- The local `emergency_months` of `RiskAnalyzer.analyze`:
`emergency_fund / monthly_fixed` when `monthly_fixed > 0`, else `0`. -/
def emergencyMonths (a : RiskAnalyzer) : ℚ :=
  if 0 < a.results.monthly_fixed_cost then
    a.emergency_fund / a.results.monthly_fixed_cost
  else 0

/-- Rule 4 of `RiskAnalyzer.analyze` (emergency-fund coverage). -/
def emergencyRule (emergency_months : ℚ) : ℤ × List RiskWarning :=
  if emergency_months < 3 then
    (15, [⟨"high", "Acil durum fonu yetersiz: " ++ fmtFixed 1 emergency_months
                     ++ " ay (önerilen: 3 ay)"⟩])
  else (0, [])

/-- Body of the rule-5 loop of `RiskAnalyzer.analyze`: one
`daily_targets` entry updates the accumulated points and warnings. -/
def targetStep (acc : ℤ × List RiskWarning) (target : DailyTarget) : ℤ × List RiskWarning :=
  if 80 < target.increase_percentage then
    (acc.1 + 10,
     acc.2 ++ [⟨"medium", target.product_name ++ ": Günde "
                  ++ toString target.target_daily ++ " adet satış hedefi zorlayıcı"⟩])
  else acc

/-- Rule 5 of `RiskAnalyzer.analyze` (per-product target realism):
the loop over `daily_targets` accumulating points and warnings. -/
def targetRule (daily_targets : List DailyTarget) : ℤ × List RiskWarning :=
  daily_targets.foldl targetStep (0, [])

/-- The raw `risk_score` accumulated by `RiskAnalyzer.analyze` before
the final `min(risk_score, 100)` clamp. -/
def rawScore (a : RiskAnalyzer) : ℤ :=
  (paybackRule a.results.breakeven_months).1
    + (salesGapRule a.results.required_increase).1
    + (marginRule a.results.gross_margin).1
    + (emergencyRule (emergencyMonths a)).1
    + (targetRule a.results.daily_targets).1

/-- The dict returned by `RiskAnalyzer.analyze`. -/
structure RiskResult where
  risk_score : ℤ
  risk_level : String
  warnings : List RiskWarning
  emergency_fund_months : ℚ
deriving Repr, DecidableEq

/-- `RiskAnalyzer.analyze`: the five rules run in order, accumulating
`risk_score` and `warnings`; the level is derived from the unclamped
score, the reported score is clamped at 100, and the reported
`emergency_fund_months` is the coverage rounded to 1 decimal place. -/
def analyze (a : RiskAnalyzer) : RiskResult :=
  let risk_score := rawScore a
  let warnings :=
    (paybackRule a.results.breakeven_months).2
      ++ (salesGapRule a.results.required_increase).2
      ++ (marginRule a.results.gross_margin).2
      ++ (emergencyRule (emergencyMonths a)).2
      ++ (targetRule a.results.daily_targets).2
  let level :=
    if 80 ≤ risk_score then "high"
    else if 50 ≤ risk_score then "medium"
    else "low"
  { risk_score := min risk_score 100
    risk_level := level
    warnings := warnings
    emergency_fund_months := roundDec 1 (emergencyMonths a) }

/-- The spec's risk-level mapping, read on a reported score:
at least 80 is high, at least 50 is medium, below that low. -/
def specLevel (score : ℤ) : String :=
  if 80 ≤ score then "high" else if 50 ≤ score then "medium" else "low"

/-- Number of fired rule tiers, as the spec counts them: at most one
tier per scalar rule (the tiers of one rule are mutually exclusive),
plus one per matching product for the per-product rule. -/
def firedCount (a : RiskAnalyzer) : ℕ :=
  (if 12 < a.results.breakeven_months then 1 else 0)
    + (if 25 < a.results.required_increase then 1 else 0)
    + (if a.results.gross_margin < 40 then 1 else 0)
    + (if emergencyMonths a < 3 then 1 else 0)
    + a.results.daily_targets.countP (fun t => decide (80 < t.increase_percentage))

/-- The daily-target rule as the spec words it, with the truncation
toward zero performed by Python's `int`: applied uniformly to every
product with the single project-wide required increase percentage. -/
def specDailyTarget (required_increase_pct : ℚ) (p : Product) : DailyTarget :=
  let target := pyInt ((p.daily_volume : ℚ) * (1 + required_increase_pct / 100))
  { product_name := p.name
    current_daily := p.daily_volume
    target_daily := target
    increase_needed := target - p.daily_volume
    increase_percentage := roundDec 1 required_increase_pct }

/-! ### Helper lemmas about the rounding primitives -/

lemma roundHalfEvenInt_abs_le (q : ℚ) : |(roundHalfEvenInt q : ℚ) - q| ≤ 1/2 := by
  have h0 : (⌊q⌋ : ℚ) ≤ q := Int.floor_le q
  have h1 : q < ⌊q⌋ + 1 := Int.lt_floor_add_one q
  unfold roundHalfEvenInt
  split_ifs with ha hb hc
  · rw [abs_sub_comm, abs_of_nonneg (by linarith)]
    linarith
  · rw [abs_of_nonneg (by push_cast; linarith)]
    push_cast
    linarith
  · rw [abs_sub_comm, abs_of_nonneg (by linarith)]
    linarith
  · rw [abs_of_nonneg (by push_cast; linarith)]
    push_cast
    linarith

lemma roundHalfEvenInt_tie_even (q : ℚ)
    (h : |(roundHalfEvenInt q : ℚ) - q| = 1/2) : 2 ∣ roundHalfEvenInt q := by
  have h0 : (⌊q⌋ : ℚ) ≤ q := Int.floor_le q
  have h1 : q < ⌊q⌋ + 1 := Int.lt_floor_add_one q
  unfold roundHalfEvenInt at h ⊢
  split_ifs at h ⊢ with ha hb hc
  · rw [abs_sub_comm, abs_of_nonneg (by linarith)] at h
    linarith
  · rw [abs_of_nonneg (by push_cast; linarith)] at h
    push_cast at h
    linarith
  · exact Int.dvd_of_emod_eq_zero hc
  · omega

lemma roundDec2_halfEven (q : ℚ) : HalfEvenAt2 q (roundDec 2 q) := by
  have hd : roundDec 2 q - q = ((roundHalfEvenInt (q * 10 ^ 2) : ℚ) - q * 10 ^ 2) / 100 := by
    unfold roundDec
    ring
  have h100 : |(100 : ℚ)| = 100 := by norm_num
  have habs : |roundDec 2 q - q| = |(roundHalfEvenInt (q * 10 ^ 2) : ℚ) - q * 10 ^ 2| / 100 := by
    rw [hd, abs_div, h100]
  refine ⟨roundHalfEvenInt (q * 10 ^ 2), by norm_num [roundDec], ?_, ?_⟩
  · have := roundHalfEvenInt_abs_le (q * 10 ^ 2)
    rw [habs]
    linarith
  · intro htie
    rw [habs] at htie
    exact roundHalfEvenInt_tie_even (q * 10 ^ 2) (by linarith)

/-! ### Helper lemmas about the risk rules -/

lemma paybackRule_fst_nonneg (m : ℤ) : 0 ≤ (paybackRule m).1 := by
  unfold paybackRule
  split_ifs <;> norm_num

lemma salesGapRule_fst_nonneg (x : ℚ) : 0 ≤ (salesGapRule x).1 := by
  unfold salesGapRule
  split_ifs <;> norm_num

lemma marginRule_fst_nonneg (x : ℚ) : 0 ≤ (marginRule x).1 := by
  unfold marginRule
  split_ifs <;> norm_num

lemma emergencyRule_fst_nonneg (x : ℚ) : 0 ≤ (emergencyRule x).1 := by
  unfold emergencyRule
  split_ifs <;> norm_num

lemma foldl_targetStep_spec (ts : List DailyTarget) :
    ∀ acc : ℤ × List RiskWarning,
      (ts.foldl targetStep acc).1
          = acc.1 + 10 * (ts.countP fun t => decide (80 < t.increase_percentage) : ℤ) ∧
      (ts.foldl targetStep acc).2.length
          = acc.2.length + ts.countP (fun t => decide (80 < t.increase_percentage)) := by
  induction ts with
  | nil =>
    intro acc
    simp
  | cons t ts ih =>
    intro acc
    rcases ih (targetStep acc t) with ⟨h1, h2⟩
    rw [List.foldl_cons, List.countP_cons]
    constructor
    · rw [h1]
      unfold targetStep
      by_cases h : 80 < t.increase_percentage
      · simp only [h, if_true, decide_eq_true_eq, if_pos]
        push_cast
        ring
      · simp [h]
    · rw [h2]
      unfold targetStep
      by_cases h : 80 < t.increase_percentage
      · simp only [h, if_true, decide_eq_true_eq, if_pos, List.length_append,
          List.length_cons, List.length_nil]
        omega
      · simp [h]

lemma targetRule_fst (ts : List DailyTarget) :
    (targetRule ts).1 = 10 * (ts.countP fun t => decide (80 < t.increase_percentage) : ℤ) := by
  have := (foldl_targetStep_spec ts (0, [])).1
  simpa [targetRule] using this

lemma targetRule_len (ts : List DailyTarget) :
    (targetRule ts).2.length = ts.countP fun t => decide (80 < t.increase_percentage) := by
  have := (foldl_targetStep_spec ts (0, [])).2
  simpa [targetRule] using this

lemma targetRule_fst_nonneg (ts : List DailyTarget) : 0 ≤ (targetRule ts).1 := by
  rw [targetRule_fst]
  positivity

lemma rawScore_nonneg (a : RiskAnalyzer) : 0 ≤ rawScore a := by
  have h1 := paybackRule_fst_nonneg a.results.breakeven_months
  have h2 := salesGapRule_fst_nonneg a.results.required_increase
  have h3 := marginRule_fst_nonneg a.results.gross_margin
  have h4 := emergencyRule_fst_nonneg (emergencyMonths a)
  have h5 := targetRule_fst_nonneg a.results.daily_targets
  unfold rawScore
  linarith

lemma paybackRule_len (m : ℤ) :
    (paybackRule m).2.length = if 12 < m then 1 else 0 := by
  unfold paybackRule
  split_ifs <;> simp_all <;> omega

lemma salesGapRule_len (x : ℚ) :
    (salesGapRule x).2.length = if 25 < x then 1 else 0 := by
  unfold salesGapRule
  split_ifs <;> simp_all <;> linarith

lemma marginRule_len (x : ℚ) :
    (marginRule x).2.length = if x < 40 then 1 else 0 := by
  unfold marginRule
  split_ifs <;> simp_all
  all_goals linarith

lemma emergencyRule_len (x : ℚ) :
    (emergencyRule x).2.length = if x < 3 then 1 else 0 := by
  unfold emergencyRule
  split_ifs
  all_goals simp_all

lemma paybackRule_zero_iff (m : ℤ) : (paybackRule m).1 = 0 ↔ (paybackRule m).2 = [] := by
  unfold paybackRule
  split_ifs <;> simp

lemma salesGapRule_zero_iff (x : ℚ) : (salesGapRule x).1 = 0 ↔ (salesGapRule x).2 = [] := by
  unfold salesGapRule
  split_ifs <;> simp

lemma marginRule_zero_iff (x : ℚ) : (marginRule x).1 = 0 ↔ (marginRule x).2 = [] := by
  unfold marginRule
  split_ifs <;> simp

lemma emergencyRule_zero_iff (x : ℚ) : (emergencyRule x).1 = 0 ↔ (emergencyRule x).2 = [] := by
  unfold emergencyRule
  split_ifs <;> simp

lemma targetRule_zero_iff (ts : List DailyTarget) :
    (targetRule ts).1 = 0 ↔ (targetRule ts).2 = [] := by
  rw [targetRule_fst, ← List.length_eq_zero, targetRule_len]
  constructor
  · intro h
    omega
  · intro h
    omega

/-! ### Concrete inputs used by the claim theorems -/

/-- Scenario A of the spec: one product with cost 10, price 20, daily
volume 10, 26 working days, fixed costs 1000, investment 10000. -/
def calcA : FeasibilityCalculator := ⟨10000, 1000, [⟨"Urun", 10, 20, 10, 26⟩]⟩

/-- One product priced 2000 with unit cost 1953.10, sold once on one
working day: the raw gross margin is exactly 2.345 percent. -/
def calcBoundary : FeasibilityCalculator := ⟨10000, 50, [⟨"P", 19531/10, 2000, 1, 1⟩]⟩

/-- Fixed costs 49.996 against a monthly contribution of 50: the
unrounded net profit is 0.004, which rounds to 0.00 at 2 decimals. -/
def calcTinyProfit : FeasibilityCalculator := ⟨10000, 12499/250, [⟨"U", 25, 50, 1, 2⟩]⟩

/-- The empty-product-list input. -/
def calcEmpty : FeasibilityCalculator := ⟨10000, 1000, []⟩

/-- Empty product list with sub-cent fixed costs of 0.005. -/
def calcSubCent : FeasibilityCalculator := ⟨1000, 1/200, []⟩

/-- A loss-making product (price 10, cost 20): the required increase
is -150 percent, making the daily-target factor negative. -/
def calcLoss : FeasibilityCalculator := ⟨100, 5, [⟨"X", 20, 10, 1, 1⟩]⟩

/-- Analyzer input with breakeven_months 999 and required_increase 100
but a healthy margin and an ample emergency fund. -/
def riskSentinel : RiskAnalyzer := ⟨⟨999, 100, 50, 1, []⟩, 10000, 100⟩

/-- Analyzer input as produced for a zero-revenue result: sentinel
months, 100 percent required increase, zero gross margin, no targets,
no emergency fund. -/
def riskZeroRevenue : RiskAnalyzer := ⟨⟨999, 100, 0, 1000, []⟩, 10000, 0⟩

/-- Scenario-D-style analyzer input: fixed cost 5000, no fund. -/
def riskNoFund : RiskAnalyzer := ⟨⟨6, 10, 50, 5000, []⟩, 10000, 0⟩

/-! ### Claim C1 -/

/-- Claim C1 is false as stated: with required_increase exactly 100
the sales-gap tier "> 100" does not fire, so the payback and sales-gap
rules contribute 40 + 25 = 65 points, not 40 + 40 = 80; and an input
with breakeven_months = 999 and required_increase = 100 (with healthy
margin and fund) reports risk_level "medium", not "high". -/
theorem claim1_counterexample :
    riskSentinel.results.breakeven_months = 999 ∧
    riskSentinel.results.required_increase = 100 ∧
    (paybackRule 999).1 + (salesGapRule 100).1 = 65 ∧
    (analyze riskSentinel).risk_level = "medium" := by
  norm_num [analyze, rawScore, paybackRule, salesGapRule, marginRule, emergencyRule,
    emergencyMonths, targetRule, riskSentinel]

/-- Claim C1 (amended): for every risk-analyzer input whose
calculation result has breakeven_months = 999 and required_increase =
100, the payback-period rule contributes 40 and the sales-gap rule 25
(40 + 25 = 65 points), so the reported risk score is at least 65 and
the reported risk_level is "medium" or "high", never "low". -/
theorem claim1_sentinel_rules (a : RiskAnalyzer)
    (hm : a.results.breakeven_months = 999)
    (hr : a.results.required_increase = 100) :
    (paybackRule a.results.breakeven_months).1 = 40 ∧
    (salesGapRule a.results.required_increase).1 = 25 ∧
    65 ≤ (analyze a).risk_score ∧
    (analyze a).risk_level ≠ "low" := by
  have hp : (paybackRule a.results.breakeven_months).1 = 40 := by
    rw [hm]
    decide
  have hs : (salesGapRule a.results.required_increase).1 = 25 := by
    rw [hr]
    decide
  have h3 := marginRule_fst_nonneg a.results.gross_margin
  have h4 := emergencyRule_fst_nonneg (emergencyMonths a)
  have h5 := targetRule_fst_nonneg a.results.daily_targets
  have hraw : 65 ≤ rawScore a := by
    unfold rawScore
    rw [hp, hs]
    linarith
  have hscore : (analyze a).risk_score = min (rawScore a) 100 := rfl
  have hlevel : (analyze a).risk_level =
      (if 80 ≤ rawScore a then "high" else if 50 ≤ rawScore a then "medium" else "low") := rfl
  refine ⟨hp, hs, ?_, ?_⟩
  · rw [hscore]
    exact le_min hraw (by norm_num)
  · rw [hlevel]
    split_ifs with hA hB
    · decide
    · decide
    · omega

/-- Witness for claim C1's amended theorem at the zero-revenue-style
analyzer input. -/
theorem claim1_witness :
    (paybackRule riskZeroRevenue.results.breakeven_months).1 = 40 ∧
    (salesGapRule riskZeroRevenue.results.required_increase).1 = 25 ∧
    65 ≤ (analyze riskZeroRevenue).risk_score ∧
    (analyze riskZeroRevenue).risk_level ≠ "low" :=
  claim1_sentinel_rules riskZeroRevenue (by decide) (by decide)

/-! ### Claim C2 -/

/-- Claim C2 is false as stated: the raw gross margin of
`calcBoundary` is exactly 2.345; the program reports 2.34 (half to
even), while the claimed round-half-away-from-zero policy gives 2.35. -/
theorem claim2_counterexample :
    raw_margin calcBoundary = 469/200 ∧
    calculate_gross_margin calcBoundary = 117/50 ∧
    roundHalfAwayFromZero2 (raw_margin calcBoundary) = 47/20 ∧
    calculate_gross_margin calcBoundary ≠ roundHalfAwayFromZero2 (raw_margin calcBoundary) := by
  norm_num [calculate_gross_margin, roundDec, roundHalfEvenInt, raw_margin, roundHalfAwayFromZero2,
    calculate_monthly_revenue, calculate_monthly_variable_costs, calcBoundary]

/-- Claim C2 (amended): every round(x, 2) operation in the calculator
(gross margin, net profit, breakeven revenue, required increase,
revenue gap) rounds half to even (banker's rounding, the default mode
of Python Decimal); a value whose third decimal is exactly 5 with even
preceding digit, such as 2.345, rounds to 2.34 and not 2.35. -/
theorem claim2_half_even :
    (∀ q : ℚ, HalfEvenAt2 q (roundDec 2 q)) ∧
    (∀ c : FeasibilityCalculator, calculate_monthly_revenue c ≠ 0 →
        calculate_gross_margin c = roundDec 2 (raw_margin c)) ∧
    (∀ c : FeasibilityCalculator, calculate_net_profit c = roundDec 2 (raw_net_profit c)) ∧
    (∀ c : FeasibilityCalculator, calculate_monthly_revenue c ≠ 0 →
        contribution_margin c ≠ 0 →
        ∃ r, calculate_breakeven c = some r ∧
          r.breakeven_revenue = roundDec 2 (raw_breakeven_revenue c) ∧
          r.required_increase = roundDec 2 (raw_required_increase c) ∧
          r.revenue_gap = some (roundDec 2 (raw_breakeven_revenue c - calculate_monthly_revenue c))) ∧
    roundDec 2 (469/200) = 117/50 := by
  refine ⟨roundDec2_halfEven, ?_, fun c => rfl, ?_, by norm_num [roundDec, roundHalfEvenInt]⟩
  · intro c h
    unfold calculate_gross_margin
    rw [if_neg h]
  · intro c h hcm
    unfold calculate_breakeven
    rw [if_neg h, if_neg hcm]
    exact ⟨_, rfl, rfl, rfl, rfl⟩

/-- Witness for claim C2's amended theorem at the boundary input. -/
theorem claim2_witness :
    calculate_gross_margin calcBoundary = roundDec 2 (raw_margin calcBoundary) :=
  claim2_half_even.2.1 calcBoundary
    (by norm_num [calculate_monthly_revenue, calcBoundary])

/-! ### Claim C3 -/

/-- Claim C3 is false as stated: at `calcTinyProfit` the rounded net
profit is 0 (not strictly positive), so the claim demands the sentinel
999, but the code guards and divides by the unrounded net profit 0.004
and returns 2500000. -/
theorem claim3_counterexample :
    calculate_monthly_revenue calcTinyProfit ≠ 0 ∧
    calculate_net_profit calcTinyProfit = 0 ∧
    (calculate_breakeven calcTinyProfit).map (·.breakeven_months) = some 2500000 := by
  norm_num [calculate_net_profit, calculate_breakeven, raw_net_profit, contribution_margin,
    raw_breakeven_revenue, raw_required_increase, pyInt, roundDec, roundHalfEvenInt,
    calculate_monthly_revenue, calculate_monthly_variable_costs, calcTinyProfit]

/-- Claim C3 (amended): for every input with nonzero revenue (and
nonzero contribution margin, where the computation completes),
breakeven_months equals floor(initial_investment / net_profit_raw)
where net_profit_raw is the UNROUNDED revenue − variable_cost −
fixed_costs, when that raw profit is strictly positive (the floor
holds for nonnegative investment, since Python int() truncates toward
zero), and equals the sentinel 999 otherwise. -/
theorem claim3_breakeven_months (c : FeasibilityCalculator)
    (h : calculate_monthly_revenue c ≠ 0)
    (hcm : contribution_margin c ≠ 0)
    (hinv : 0 ≤ c.initial_investment) :
    ∃ r, calculate_breakeven c = some r ∧
      r.breakeven_months =
        (if 0 < raw_net_profit c then ⌊c.initial_investment / raw_net_profit c⌋
         else 999) := by
  unfold calculate_breakeven
  rw [if_neg h, if_neg hcm]
  refine ⟨_, rfl, ?_⟩
  dsimp only
  by_cases hn : 0 < raw_net_profit c
  · rw [if_pos hn, if_pos hn]
    unfold pyInt
    rw [if_pos (div_nonneg hinv hn.le)]
  · rw [if_neg hn, if_neg hn]

/-- Witness for claim C3's amended theorem at scenario A. -/
theorem claim3_witness :
    ∃ r, calculate_breakeven calcA = some r ∧
      r.breakeven_months =
        (if 0 < raw_net_profit calcA then ⌊calcA.initial_investment / raw_net_profit calcA⌋
         else 999) :=
  claim3_breakeven_months calcA
    (by norm_num [calculate_monthly_revenue, calcA])
    (by norm_num [contribution_margin, calculate_monthly_revenue,
      calculate_monthly_variable_costs, calcA])
    (by norm_num [calcA])

/-! ### Claim C4 -/

/-- Claim C4 is false as stated: in the zero-revenue case the
break-even dict short-circuits to three keys only, so there is no
current_revenue and no revenue_gap entry at all. -/
theorem claim4_counterexample :
    calculate_monthly_revenue calcEmpty = 0 ∧
    (calculate_breakeven calcEmpty).map (·.current_revenue) = some none ∧
    (calculate_breakeven calcEmpty).map (·.revenue_gap) = some none := by
  norm_num [calculate_breakeven, calculate_monthly_revenue, calcEmpty]

/-- Claim C4 (amended): every break-even result computed from nonzero
revenue (and nonzero contribution margin) contains a current revenue
field equal to round(revenue, 2) and a revenue gap field equal to
round(breakeven_revenue_raw − revenue, 2); in the zero-revenue case
both fields are absent. -/
theorem claim4_revenue_gap (c : FeasibilityCalculator)
    (h : calculate_monthly_revenue c ≠ 0)
    (hcm : contribution_margin c ≠ 0) :
    ∃ r, calculate_breakeven c = some r ∧
      r.current_revenue = some (roundDec 2 (calculate_monthly_revenue c)) ∧
      r.revenue_gap = some (roundDec 2 (raw_breakeven_revenue c - calculate_monthly_revenue c)) := by
  unfold calculate_breakeven
  rw [if_neg h, if_neg hcm]
  exact ⟨_, rfl, rfl, rfl⟩

/-- Witness for claim C4's amended theorem at scenario A. -/
theorem claim4_witness :
    ∃ r, calculate_breakeven calcA = some r ∧
      r.current_revenue = some (roundDec 2 (calculate_monthly_revenue calcA)) ∧
      r.revenue_gap = some (roundDec 2 (raw_breakeven_revenue calcA - calculate_monthly_revenue calcA)) :=
  claim4_revenue_gap calcA
    (by norm_num [calculate_monthly_revenue, calcA])
    (by norm_num [contribution_margin, calculate_monthly_revenue,
      calculate_monthly_variable_costs, calcA])

/-! ### Claim C5 -/

/-- Claim C5 is false as stated for sub-cent fixed costs: with the
empty product list and monthly fixed costs 0.005 the returned monthly
net profit is round(-0.005, 2) = 0 under half-to-even rounding, which
differs from -fixed_costs = -0.005. -/
theorem claim5_counterexample :
    (calculate_all calcSubCent).map (·.monthly_net_profit) = some 0 ∧
    calcSubCent.monthly_fixed_costs = 1/200 ∧
    (0 : ℚ) ≠ -(1/200) := by
  norm_num [calculate_all, calculate_breakeven, calculate_daily_targets,
    calculate_gross_margin, calculate_net_profit, raw_net_profit,
    roundDec, roundHalfEvenInt, calculate_monthly_revenue,
    calculate_monthly_variable_costs, calcSubCent]

/-- Claim C5 (amended): for the empty product list the calculator
raises no exception and returns monthly revenue 0, monthly variable
cost 0, monthly net profit round(-fixed_costs, 2) (equal to
-fixed_costs whenever the fixed costs are a whole number of cents),
gross margin 0, breakeven_months 999 and required_increase 100. -/
theorem claim5_empty_products (inv fixed : ℚ) :
    ∃ r, calculate_all ⟨inv, fixed, []⟩ = some r ∧
      r.monthly_revenue = 0 ∧
      r.monthly_variable_cost = 0 ∧
      r.monthly_net_profit = roundDec 2 (-fixed) ∧
      r.gross_margin = 0 ∧
      r.breakeven.breakeven_months = 999 ∧
      r.breakeven.required_increase = 100 := by
  have hrev : calculate_monthly_revenue ⟨inv, fixed, []⟩ = 0 := rfl
  have hvc : calculate_monthly_variable_costs ⟨inv, fixed, []⟩ = 0 := rfl
  have hnet : calculate_net_profit ⟨inv, fixed, []⟩ = roundDec 2 (-fixed) := by
    unfold calculate_net_profit raw_net_profit
    rw [hrev, hvc]
    norm_num
  have hgm : calculate_gross_margin ⟨inv, fixed, []⟩ = 0 := by
    unfold calculate_gross_margin
    rw [if_pos hrev]
  have hbe : calculate_breakeven ⟨inv, fixed, []⟩
      = some ⟨0, 999, 100, none, none, none⟩ := by
    unfold calculate_breakeven
    rw [if_pos hrev]
  have hdt : calculate_daily_targets ⟨inv, fixed, []⟩ = some [] := by
    unfold calculate_daily_targets
    rw [hbe]
    rfl
  have hall : calculate_all ⟨inv, fixed, []⟩ = some
      { monthly_revenue := calculate_monthly_revenue ⟨inv, fixed, []⟩
        monthly_variable_cost := calculate_monthly_variable_costs ⟨inv, fixed, []⟩
        monthly_fixed_cost := fixed
        monthly_net_profit := calculate_net_profit ⟨inv, fixed, []⟩
        gross_margin := calculate_gross_margin ⟨inv, fixed, []⟩
        net_margin :=
          if 0 < calculate_monthly_revenue ⟨inv, fixed, []⟩ then
            calculate_net_profit ⟨inv, fixed, []⟩
              / calculate_monthly_revenue ⟨inv, fixed, []⟩ * 100
          else 0
        breakeven := ⟨0, 999, 100, none, none, none⟩
        daily_targets := [] } := by
    unfold calculate_all
    rw [hbe, hdt]
    rfl
  exact ⟨_, hall, hrev, hvc, hnet, hgm, rfl, rfl⟩

/-! ### Claim C6 -/

/-- Claim C6: scenario A (one product: cost 10, price 20, volume 10,
26 working days; fixed costs 1000; investment 10000) yields monthly
revenue 5200, variable cost 2600, net profit 1600, gross margin 50 and
breakeven_months floor(10000/1600) = 6. -/
theorem claim6_scenarioA :
    (calculate_all calcA).map
        (fun r => (r.monthly_revenue, r.monthly_variable_cost, r.monthly_net_profit,
                   r.gross_margin, r.breakeven.breakeven_months))
      = some (5200, 2600, 1600, 50, 6) := by
  norm_num [calculate_all, calculate_breakeven, calculate_daily_targets,
    calculate_gross_margin, calculate_net_profit, raw_margin, raw_net_profit,
    contribution_margin, raw_breakeven_revenue, raw_required_increase, pyInt,
    roundDec, roundHalfEvenInt, calculate_monthly_revenue,
    calculate_monthly_variable_costs, calcA]

/-! ### Claim C7 -/

/-- Claim C7 is false as stated: at `calcLoss` the required increase
is -150, so the claimed floor formula gives
floor(1 * (1 - 150/100)) = floor(-0.5) = -1, while the code's int()
truncation toward zero yields target_daily = 0. -/
theorem claim7_counterexample :
    (calculate_breakeven calcLoss).map (·.required_increase) = some (-150) ∧
    (calculate_daily_targets calcLoss).map (fun ts => ts.map (·.target_daily)) = some [0] ∧
    ⌊(1 : ℚ) * (1 + (-150) / 100)⌋ = -1 := by
  norm_num [calculate_breakeven, calculate_daily_targets, contribution_margin,
    raw_breakeven_revenue, raw_required_increase, raw_net_profit, pyInt,
    roundDec, roundHalfEvenInt, calculate_monthly_revenue,
    calculate_monthly_variable_costs, calcLoss]

/-- Claim C7 (amended): for every product, in input order, the
daily-targets operation returns
target_daily = trunc(current_daily * (1 + required_increase_pct/100))
(truncation toward zero, Python int(); this equals the floor whenever
the product is nonnegative, and differs from it for negative values)
where required_increase_pct is the single project-wide required
increase from the break-even analysis applied uniformly to every
product, and increase_needed = target_daily - current_daily. -/
theorem claim7_daily_targets (c : FeasibilityCalculator) (bi : BreakevenResult)
    (h : calculate_breakeven c = some bi) :
    calculate_daily_targets c
      = some (c.products.map (specDailyTarget bi.required_increase)) := by
  unfold calculate_daily_targets
  rw [h, Option.map_some']
  refine congrArg some (List.map_congr_left fun p _ => ?_)
  unfold specDailyTarget
  dsimp only
  rw [div_mul_cancel₀ _ (show (100:ℚ) ≠ 0 by norm_num)]

/-- Break-even record of scenario A, as the calculator produces it. -/
def biA : BreakevenResult := ⟨2000, 6, -3077/50, some 0, some 5200, some (-3200)⟩

/-- Witness for claim C7's amended theorem at scenario A. -/
theorem claim7_witness :
    calculate_daily_targets calcA
      = some (calcA.products.map (specDailyTarget biA.required_increase)) :=
  claim7_daily_targets calcA biA
    (by norm_num [calculate_breakeven, contribution_margin, raw_breakeven_revenue,
      raw_required_increase, raw_net_profit, pyInt, roundDec, roundHalfEvenInt,
      calculate_monthly_revenue, calculate_monthly_variable_costs, calcA, biA])

/-! ### Claim C8 -/

/-- Claim C8: the reported risk_score is the raw sum of fired rule
points clamped at 100, the reported risk_level follows the ≥80 high /
≥50 medium / low mapping read on the reported score, and an input
whose raw points exceed 100 (here 105) reports exactly 100. -/
theorem claim8_clamp_level :
    (∀ a : RiskAnalyzer,
        (analyze a).risk_score = min (rawScore a) 100 ∧
        (analyze a).risk_level = specLevel ((analyze a).risk_score)) ∧
    100 < rawScore riskZeroRevenue ∧
    (analyze riskZeroRevenue).risk_score = 100 := by
  refine ⟨fun a => ⟨rfl, ?_⟩, ?_, ?_⟩
  · have hs : (analyze a).risk_score = min (rawScore a) 100 := rfl
    have hl : (analyze a).risk_level =
        (if 80 ≤ rawScore a then "high"
         else if 50 ≤ rawScore a then "medium" else "low") := rfl
    rw [hl, hs]
    unfold specLevel
    rcases le_or_lt (rawScore a) 100 with h | h
    · rw [min_eq_left h]
    · rw [min_eq_right h.le]
      split_ifs <;> first | rfl | omega
  · norm_num [rawScore, paybackRule, salesGapRule, marginRule, emergencyRule,
      emergencyMonths, targetRule, riskZeroRevenue]
  · norm_num [analyze, rawScore, paybackRule, salesGapRule, marginRule, emergencyRule,
      emergencyMonths, targetRule, riskZeroRevenue]

/-! ### Claim C9 -/

/-- Claim C9: emergency-fund coverage is emergency_fund divided by
monthly_fixed_cost with an explicit zero guard (no division error);
coverage below 3 months adds exactly 15 points with one "high"
severity warning, otherwise the rule contributes nothing; and the
reported emergency_fund_months is the coverage rounded to 1 decimal. -/
theorem claim9_emergency_fund (a : RiskAnalyzer)
    (h : 0 ≤ a.results.monthly_fixed_cost) :
    emergencyMonths a =
      (if a.results.monthly_fixed_cost = 0 then 0
       else a.emergency_fund / a.results.monthly_fixed_cost) ∧
    (analyze a).emergency_fund_months = roundDec 1 (emergencyMonths a) ∧
    (emergencyMonths a < 3 →
      (emergencyRule (emergencyMonths a)).1 = 15 ∧
      ∃ w, (emergencyRule (emergencyMonths a)).2 = [w] ∧ w.wtype = "high" ∧
        w ∈ (analyze a).warnings) ∧
    (¬ emergencyMonths a < 3 → emergencyRule (emergencyMonths a) = (0, [])) := by
  refine ⟨?_, rfl, ?_, ?_⟩
  · unfold emergencyMonths
    rcases eq_or_lt_of_le h with h0 | h0
    · simp [← h0]
    · rw [if_pos h0, if_neg h0.ne']
  · intro hlt
    have he : emergencyRule (emergencyMonths a)
        = (15, [⟨"high", "Acil durum fonu yetersiz: " ++ fmtFixed 1 (emergencyMonths a)
                     ++ " ay (önerilen: 3 ay)"⟩]) := by
      unfold emergencyRule
      rw [if_pos hlt]
    refine ⟨by rw [he], ⟨_, by rw [he], rfl, ?_⟩⟩
    have hw : (analyze a).warnings =
        (paybackRule a.results.breakeven_months).2
          ++ (salesGapRule a.results.required_increase).2
          ++ (marginRule a.results.gross_margin).2
          ++ (emergencyRule (emergencyMonths a)).2
          ++ (targetRule a.results.daily_targets).2 := rfl
    rw [hw, he]
    simp
  · intro hge
    unfold emergencyRule
    rw [if_neg hge]

/-- Witness for claim C9's theorem at a scenario-D-style input
(fixed cost 5000, no emergency fund). -/
theorem claim9_witness :
    emergencyMonths riskNoFund =
      (if riskNoFund.results.monthly_fixed_cost = 0 then 0
       else riskNoFund.emergency_fund / riskNoFund.results.monthly_fixed_cost) ∧
    (analyze riskNoFund).emergency_fund_months = roundDec 1 (emergencyMonths riskNoFund) ∧
    (emergencyMonths riskNoFund < 3 →
      (emergencyRule (emergencyMonths riskNoFund)).1 = 15 ∧
      ∃ w, (emergencyRule (emergencyMonths riskNoFund)).2 = [w] ∧ w.wtype = "high" ∧
        w ∈ (analyze riskNoFund).warnings) ∧
    (¬ emergencyMonths riskNoFund < 3 →
      emergencyRule (emergencyMonths riskNoFund) = (0, [])) :=
  claim9_emergency_fund riskNoFund (by norm_num [riskNoFund])

/-! ### Claim C10 -/

/-- Claim C10: the reported risk_score is 0 exactly when the warnings
list is empty, and the number of warnings equals the number of fired
rule tiers (the per-product rule counted once per matching product). -/
theorem claim10_warnings_iff (a : RiskAnalyzer) :
    ((analyze a).risk_score = 0 ↔ (analyze a).warnings = []) ∧
    (analyze a).warnings.length = firedCount a := by
  have hwarn : (analyze a).warnings =
      (paybackRule a.results.breakeven_months).2
        ++ (salesGapRule a.results.required_increase).2
        ++ (marginRule a.results.gross_margin).2
        ++ (emergencyRule (emergencyMonths a)).2
        ++ (targetRule a.results.daily_targets).2 := rfl
  have hscore : (analyze a).risk_score = min (rawScore a) 100 := rfl
  have h1 := paybackRule_fst_nonneg a.results.breakeven_months
  have h2 := salesGapRule_fst_nonneg a.results.required_increase
  have h3 := marginRule_fst_nonneg a.results.gross_margin
  have h4 := emergencyRule_fst_nonneg (emergencyMonths a)
  have h5 := targetRule_fst_nonneg a.results.daily_targets
  constructor
  · rw [hscore, hwarn]
    constructor
    · intro h0
      have hraw : rawScore a = 0 := by
        rw [min_def] at h0
        split_ifs at h0
        · exact h0
        · exact absurd h0 (by norm_num)
      unfold rawScore at hraw
      have e1 : (paybackRule a.results.breakeven_months).1 = 0 := by linarith
      have e2 : (salesGapRule a.results.required_increase).1 = 0 := by linarith
      have e3 : (marginRule a.results.gross_margin).1 = 0 := by linarith
      have e4 : (emergencyRule (emergencyMonths a)).1 = 0 := by linarith
      have e5 : (targetRule a.results.daily_targets).1 = 0 := by linarith
      rw [(paybackRule_zero_iff _).mp e1, (salesGapRule_zero_iff _).mp e2,
        (marginRule_zero_iff _).mp e3, (emergencyRule_zero_iff _).mp e4,
        (targetRule_zero_iff _).mp e5]
      rfl
    · intro hnil
      simp only [List.append_eq_nil] at hnil
      obtain ⟨⟨⟨⟨hp, hs⟩, hm⟩, he⟩, ht⟩ := hnil
      have e1 := (paybackRule_zero_iff _).mpr hp
      have e2 := (salesGapRule_zero_iff _).mpr hs
      have e3 := (marginRule_zero_iff _).mpr hm
      have e4 := (emergencyRule_zero_iff _).mpr he
      have e5 := (targetRule_zero_iff _).mpr ht
      have hraw : rawScore a = 0 := by
        unfold rawScore
        rw [e1, e2, e3, e4, e5]
        norm_num
      rw [hraw]
      rfl
  · rw [hwarn, firedCount]
    simp only [List.length_append]
    rw [paybackRule_len, salesGapRule_len, marginRule_len, emergencyRule_len,
      targetRule_len]

end Feasibility
